import Mathlib

/-!
Verification of the X509 certificate-store module (`src/openssl/src/x509/store.rs`)
against its specification.

The Rust module is a thin safe wrapper around the native `X509_STORE` API.
Pure wrapper logic (argument marshalling, `CString` conversion, `cvt` result
translation, move semantics of `build`) is embedded directly from the source.
The native functions themselves (`ffi::X509_STORE_*`, `ffi::X509_LOOKUP_*`)
are declared in the repository's sys crate but their bodies are not part of
the sources; where a claim depends on their behaviour they are modelled from
the specification, each such definition carrying a doc comment that starts
with `Modelled from the spec:`.

A Rust panic (an `unwrap()` on a failed conversion) is embedded as `none` of
an `Option` result; a normal return is `some`.
-/

/-- Error kinds of the specification's §7 error model.  The Rust `ErrorStack`
is opaque; the spec assigns symbolic kinds, which the modelled native layer
pushes onto an explicit error slot. -/
inductive X509Error where
  | InvalidArgument
  | IoError
  | ParseError
  | InvalidCertificate
  | ResourceExhausted
  | Unknown
deriving DecidableEq, Repr

/-- Embeds `cvt` of the crate: a native return code `ret ≤ 0` becomes an
`Err` carrying the error the native call left behind (`Unknown` when the
modelled call recorded none), a positive code becomes `Ok`. -/
def cvt (ret : Int) (err : Option X509Error) : Except X509Error Int :=
  if ret ≤ 0 then Except.error (err.getD X509Error.Unknown) else Except.ok ret

/-- Embeds `X509Purpose` (src/openssl/src/x509/store.rs:52-76): a transparent
newtype over a raw `c_int`, machine integers taken as `Int`. -/
structure X509Purpose where
  raw : Int
deriving DecidableEq, Repr

/-- Embeds `X509Purpose::from_raw`. -/
def X509Purpose.from_raw (raw : Int) : X509Purpose :=
  X509Purpose.mk raw

/-- Embeds `X509Purpose::as_raw`. -/
def X509Purpose.as_raw (p : X509Purpose) : Int :=
  p.raw

/-- Embeds `X509Trust` (src/openssl/src/x509/store.rs:78-102): a transparent
newtype over a raw `c_int`. -/
structure X509Trust where
  raw : Int
deriving DecidableEq, Repr

/-- Embeds `X509Trust::from_raw`. -/
def X509Trust.from_raw (raw : Int) : X509Trust :=
  X509Trust.mk raw

/-- Embeds `X509Trust::as_raw`. -/
def X509Trust.as_raw (t : X509Trust) : Int :=
  t.raw

/-- An opaque certificate value: the spec (§3, §6) exposes only identity
data (subject name, serial); parsing is external.  Names and serials are
abstracted as naturals. -/
structure X509 where
  subject : Nat
  serial : Nat
deriving DecidableEq, Repr

/-- A CRL value with the fields the hashed-directory freshness protocol
consults (§4.2): issuer name, CRL number, issue and expiry dates. -/
structure X509Crl where
  issuer : Nat
  crlNumber : Nat
  lastUpdate : Nat
  nextUpdate : Nat
deriving DecidableEq, Repr

/-- Embeds `X509Object`: the tagged union over certificates and CRLs stored
in the object cache (§3). -/
inductive X509Object where
  | certificate (c : X509)
  | crl (c : X509Crl)
deriving DecidableEq, Repr

/-- Embeds `X509VerifyFlags`: a bitset, its `bits()` accessor yielding the
raw word; bits are a `Nat` and union is bitwise or. -/
structure X509VerifyFlags where
  bits : Nat
deriving DecidableEq, Repr

/-- The state behind an `X509_STORE` handle: the object cache plus the
policy fields the spec's builder operations touch (§3 StoreBuilder/Store).
`X509StoreBuilder` and `X509Store` wrap the same native state
(src/openssl/src/x509/store.rs:104-112 and 281-289). -/
structure X509StoreState where
  objs : List X509Object
  depth : Int
  purpose : X509Purpose
  trust : X509Trust
  flags : Nat
deriving DecidableEq, Repr

/-- Result of a modelled native call: the updated store state, the C return
code, and the error kind pushed to the error stack, if any. -/
structure FfiRet where
  st : X509StoreState
  ret : Int
  err : Option X509Error
deriving DecidableEq, Repr

/-- Modelled from the spec: the filesystem environment the native loaders
consult — which paths are readable files / directories, which files hold
well-formed bundles, and what objects each source yields. -/
structure FileSystem where
  readableFiles : List String
  wellFormedFiles : List String
  readableDirs : List String
  fileContents : List (String × List X509Object)
deriving DecidableEq, Repr

/-- Objects a readable path yields under the modelled filesystem. -/
def FileSystem.objectsOf (fs : FileSystem) (path : String) : List X509Object :=
  match fs.fileContents.find? (fun e => e.fst = path) with
  | some e => e.snd
  | none => []

/-- Embeds `X509StoreBuilder::new` (src/openssl/src/x509/store.rs:118-124):
the store is initially empty; default policy values are
implementation-defined per the spec (§3) and taken as zero here. -/
def X509StoreBuilder.new : X509StoreState :=
  X509StoreState.mk [] 0 (X509Purpose.from_raw 0) (X509Trust.from_raw 0) 0

/-- Embeds `X509StoreBuilder::build` (src/openssl/src/x509/store.rs:127-131):
`X509Store(self.0)` plus `mem::forget(self)` — the store is the builder's
state unchanged, and the function is infallible (no `Result` in its type). -/
def X509StoreBuilder.build (s : X509StoreState) : X509StoreState :=
  s

/-- Embeds `X509StoreRef::objects` (src/openssl/src/x509/store.rs:291-296):
read-only view of the object cache. -/
def X509StoreRef.objects (s : X509StoreState) : List X509Object :=
  s.objs

/-- Modelled from the spec: `ffi::X509_STORE_add_cert` — inserts the
certificate into the object cache unless an identical object is already
present (§3 X509Object, §4.1 addCertificate, §4.3 insert); duplicate
inserts are accepted at the API level and deduplicated by the cache. -/
def X509_STORE_add_cert (s : X509StoreState) (cert : X509) : FfiRet :=
  if s.objs.contains (X509Object.certificate cert) then
    FfiRet.mk s 1 none
  else
    FfiRet.mk { s with objs := s.objs ++ [X509Object.certificate cert] } 1 none

/-- Embeds `X509StoreBuilderRef::add_cert` (src/openssl/src/x509/store.rs:137-139). -/
def X509StoreBuilderRef.add_cert (s : X509StoreState) (cert : X509) :
    X509StoreState × Except X509Error Unit :=
  let r := X509_STORE_add_cert s cert
  (r.st, (cvt r.ret r.err).map fun _ => ())

/-- Modelled from the spec: `ffi::X509_STORE_set_depth` — sets the maximum
chain depth; §4.1 setMaxDepth rejects negative values with
`InvalidArgument`, leaving the store unchanged. -/
def X509_STORE_set_depth (s : X509StoreState) (depth : Int) : FfiRet :=
  if depth < 0 then
    FfiRet.mk s 0 (some X509Error.InvalidArgument)
  else
    FfiRet.mk { s with depth := depth } 1 none

/-- Embeds `X509StoreBuilderRef::set_depth` (src/openssl/src/x509/store.rs:146-148). -/
def X509StoreBuilderRef.set_depth (s : X509StoreState) (depth : Int) :
    X509StoreState × Except X509Error Unit :=
  let r := X509_STORE_set_depth s depth
  (r.st, (cvt r.ret r.err).map fun _ => ())

/-- Modelled from the spec: `ffi::X509_STORE_set_purpose` — last-write-wins
policy update (§4.1 setPurpose). -/
def X509_STORE_set_purpose (s : X509StoreState) (purpose : Int) : FfiRet :=
  FfiRet.mk { s with purpose := X509Purpose.from_raw purpose } 1 none

/-- Embeds `X509StoreBuilderRef::set_purpose` (src/openssl/src/x509/store.rs:155-157). -/
def X509StoreBuilderRef.set_purpose (s : X509StoreState) (purpose : X509Purpose) :
    X509StoreState × Except X509Error Unit :=
  let r := X509_STORE_set_purpose s purpose.as_raw
  (r.st, (cvt r.ret r.err).map fun _ => ())

/-- Modelled from the spec: `ffi::X509_STORE_set_trust` — last-write-wins
policy update (§4.1 setTrust). -/
def X509_STORE_set_trust (s : X509StoreState) (trust : Int) : FfiRet :=
  FfiRet.mk { s with trust := X509Trust.from_raw trust } 1 none

/-- Embeds `X509StoreBuilderRef::set_trust` (src/openssl/src/x509/store.rs:164-166). -/
def X509StoreBuilderRef.set_trust (s : X509StoreState) (trust : X509Trust) :
    X509StoreState × Except X509Error Unit :=
  let r := X509_STORE_set_trust s trust.as_raw
  (r.st, (cvt r.ret r.err).map fun _ => ())

/-- Modelled from the spec: `ffi::X509_STORE_set_flags` — §4.1 resolves the
flag setter as cumulative-additive across calls: the given bits are united
with the bits already in force, never replacing them. -/
def X509_STORE_set_flags (s : X509StoreState) (flags : Nat) : FfiRet :=
  FfiRet.mk { s with flags := s.flags ||| flags } 1 none

/-- Embeds `X509StoreBuilderRef::set_flags` (src/openssl/src/x509/store.rs:213-215):
passes `flags.bits()` through unchanged. -/
def X509StoreBuilderRef.set_flags (s : X509StoreState) (flags : X509VerifyFlags) :
    X509StoreState × Except X509Error Unit :=
  let r := X509_STORE_set_flags s flags.bits
  (r.st, (cvt r.ret r.err).map fun _ => ())

/-- Whether a string contains an interior NUL byte, the condition under
which the wrapper's `CString::new(..).unwrap()` panics. -/
def hasNulByte (s : String) : Bool :=
  s.toList.contains (Char.ofNat 0)

/-- Embeds `CString::new`: fails (returns `none`) exactly when the string
contains an interior NUL byte. -/
def cstring_new (s : String) : Option String :=
  if hasNulByte s then none else some s

/-- Modelled from the spec: `ffi::X509_STORE_load_locations` — §4.1
loadTrustedLocations: both paths empty is `InvalidArgument`; a given but
unreadable path is `IoError`; a readable file with malformed contents is
`ParseError`; otherwise the objects of the usable sources enter the cache. -/
def X509_STORE_load_locations (fs : FileSystem) (s : X509StoreState)
    (file dir : String) : FfiRet :=
  if file = "" ∧ dir = "" then
    FfiRet.mk s 0 (some X509Error.InvalidArgument)
  else if file ≠ "" ∧ file ∉ fs.readableFiles then
    FfiRet.mk s 0 (some X509Error.IoError)
  else if file ≠ "" ∧ file ∉ fs.wellFormedFiles then
    FfiRet.mk s 0 (some X509Error.ParseError)
  else if dir ≠ "" ∧ dir ∉ fs.readableDirs then
    FfiRet.mk s 0 (some X509Error.IoError)
  else
    FfiRet.mk { s with objs := s.objs ++ fs.objectsOf file } 1 none

/-- Embeds `X509StoreBuilderRef::load_locations`
(src/openssl/src/x509/store.rs:171-183): both paths go through
`to_str().unwrap()` and `CString::new(..).unwrap()` before the native call;
paths are embedded as UTF-8 strings, so the modelled panic (`none`) is the
`CString::new` unwrap on an interior NUL byte. -/
def X509StoreBuilderRef.load_locations (fs : FileSystem) (s : X509StoreState)
    (file dir : String) : Option (X509StoreState × Except X509Error Unit) :=
  match cstring_new file, cstring_new dir with
  | some f, some d =>
    let r := X509_STORE_load_locations fs s f d
    some (r.st, (cvt r.ret r.err).map fun _ => ())
  | _, _ => none

/-- The environment the native default-path loader consults: the
`SSL_CERT_FILE` and `SSL_CERT_DIR` variables (§6). -/
structure SslEnv where
  cert_file : Option String
  cert_dir : Option String
deriving DecidableEq, Repr

/-- Compile-time default locations of the native library (§4.1
setDefaultPaths: "falling back to compile-time defaults"). -/
structure OpensslDefaults where
  file : Option String
  dir : Option String
deriving DecidableEq, Repr

/-- The bundle file in effect for default loading: the environment variable
when present, else the compile-time default. -/
def effectiveDefaultFile (env : SslEnv) (defs : OpensslDefaults) : Option String :=
  match env.cert_file with
  | some f => some f
  | none => defs.file

/-- The directory in effect for default loading. -/
def effectiveDefaultDir (env : SslEnv) (defs : OpensslDefaults) : Option String :=
  match env.cert_dir with
  | some d => some d
  | none => defs.dir

/-- Whether some default location is configured but unreadable: the spec's
only failure condition for `setDefaultPaths` (§4.1). -/
def defaultsUnreadable (fs : FileSystem) (env : SslEnv) (defs : OpensslDefaults) : Bool :=
  (match effectiveDefaultFile env defs with
   | some f => decide (f ∉ fs.readableFiles)
   | none => false) ||
  (match effectiveDefaultDir env defs with
   | some d => decide (d ∉ fs.readableDirs)
   | none => false)

/-- Modelled from the spec: `ffi::X509_STORE_set_default_paths` — §4.1
setDefaultPaths: no defaults configured at all is a silent no-op success
with zero objects loaded; defaults configured but unreadable is `IoError`;
otherwise the configured sources are loaded. -/
def X509_STORE_set_default_paths (fs : FileSystem) (env : SslEnv)
    (defs : OpensslDefaults) (s : X509StoreState) : FfiRet :=
  match effectiveDefaultFile env defs, effectiveDefaultDir env defs with
  | none, none => FfiRet.mk s 1 none
  | ef, _ =>
    if defaultsUnreadable fs env defs then
      FfiRet.mk s 0 (some X509Error.IoError)
    else
      match ef with
      | some f => FfiRet.mk { s with objs := s.objs ++ fs.objectsOf f } 1 none
      | none => FfiRet.mk s 1 none

/-- Embeds `X509StoreBuilderRef::set_default_paths`
(src/openssl/src/x509/store.rs:190-192). -/
def X509StoreBuilderRef.set_default_paths (fs : FileSystem) (env : SslEnv)
    (defs : OpensslDefaults) (s : X509StoreState) :
    X509StoreState × Except X509Error Unit :=
  let r := X509_STORE_set_default_paths fs env defs s
  (r.st, (cvt r.ret r.err).map fun _ => ())

/-- Embeds `SslFiletype`: the encoding hint passed to `add_dir`, a raw
integer newtype. -/
structure SslFiletype where
  raw : Int
deriving DecidableEq, Repr

/-- Registration state of a hashed-directory lookup: the directories added
so far with their encoding hints, in registration order (§4.2). -/
structure X509LookupHashDirReg where
  dirs : List (String × SslFiletype)
deriving DecidableEq, Repr

/-- Modelled from the spec: `ffi::X509_LOOKUP_add_dir` — §4.2 addDirectory:
a completely absent registration target is rejected with `IoError`;
otherwise the directory is appended to the registration list. -/
def X509_LOOKUP_add_dir (fs : FileSystem) (reg : X509LookupHashDirReg)
    (name : String) (file_type : SslFiletype) :
    X509LookupHashDirReg × Int × Option X509Error :=
  if name ∈ fs.readableDirs then
    (X509LookupHashDirReg.mk (reg.dirs ++ [(name, file_type)]), 1, none)
  else
    (reg, 0, some X509Error.IoError)

/-- Embeds `X509LookupRef::<HashDir>::add_dir`
(src/openssl/src/x509/store.rs:254-268): the name goes through
`CString::new(..).unwrap()` before the native call; the modelled panic
(`none`) is that unwrap on an interior NUL byte. -/
def X509LookupRef.add_dir (fs : FileSystem) (reg : X509LookupHashDirReg)
    (name : String) (file_type : SslFiletype) :
    Option (X509LookupHashDirReg × Except X509Error Unit) :=
  match cstring_new name with
  | some n =>
    let r := X509_LOOKUP_add_dir fs reg n file_type
    some (r.fst, (cvt r.snd.fst r.snd.snd).map fun _ => ())
  | none => none

/-- Query-time state of a hashed-directory lookup, modelled from the spec
(§4.2): the contents of the registered directories (the CRL files currently
on disk, per directory in registration order) and the in-memory CRL cache. -/
structure HashDirQueryState where
  dirs : List (List X509Crl)
  cache : List X509Crl
deriving DecidableEq, Repr

/-- Whether a CRL is expired at the given time: its next-update date has
passed. -/
def crlExpired (now : Nat) (c : X509Crl) : Bool :=
  decide (c.nextUpdate ≤ now)

/-- `b` is at least as fresh as `a`: not older-numbered, and not older-dated
at equal number (§4.2 "newer-numbered or newer-dated", read lexicographically). -/
def crlFresher (a b : X509Crl) : Prop :=
  a.crlNumber < b.crlNumber ∨ (a.crlNumber = b.crlNumber ∧ a.lastUpdate ≤ b.lastUpdate)

instance (a b : X509Crl) : Decidable (crlFresher a b) := by
  unfold crlFresher; infer_instance

/-- The fresher of two CRL candidates, preferring the second only when it is
strictly newer-numbered or newer-dated. -/
def betterCrl (a b : X509Crl) : X509Crl :=
  if a.crlNumber < b.crlNumber then b
  else if b.crlNumber < a.crlNumber then a
  else if a.lastUpdate < b.lastUpdate then b
  else a

/-- All CRL files for the requested issuer name across the registered
directories (the `<hash>.idx` files of §4.2/§6, abstracted to the issuer
name they hash). -/
def scanForCrl (dirs : List (List X509Crl)) (name : Nat) : List X509Crl :=
  (dirs.foldr (fun d acc => d ++ acc) []).filter (fun c => c.issuer == name)

/-- The freshest among a base candidate and a list of scanned candidates. -/
def freshestCrl (base : X509Crl) (found : List X509Crl) : X509Crl :=
  found.foldl betterCrl base

/-- The cached CRL for an issuer name, if any. -/
def cachedCrlFor (st : HashDirQueryState) (name : Nat) : Option X509Crl :=
  st.cache.find? (fun c => c.issuer == name)

/-- Modelled from the spec: the CRL query protocol of the hashed-directory
lookup (§4.2, and the doc of `X509Lookup::<HashDir>::hash_dir`,
src/openssl/src/x509/store.rs:233-245): a cached unexpired CRL is served
as is; a cached expired CRL forces a re-scan of the registered directories
and the freshest of cache and disk is served; with no cached entry the
scan result is served and cached. -/
def hashDirGetCrl (st : HashDirQueryState) (name : Nat) (now : Nat) :
    HashDirQueryState × Option X509Crl :=
  match cachedCrlFor st name with
  | some c =>
    if crlExpired now c then
      let fresh := freshestCrl c (scanForCrl st.dirs name)
      (HashDirQueryState.mk st.dirs
        (st.cache.map (fun e => if e.issuer == name then fresh else e)), some fresh)
    else (st, some c)
  | none =>
    match scanForCrl st.dirs name with
    | [] => (st, none)
    | d :: rest =>
      let best := freshestCrl d rest
      (HashDirQueryState.mk st.dirs (st.cache ++ [best]), some best)

/-- The actions available on a builder handle, plus the consuming `build`
(src/openssl/src/x509/store.rs:114-216). -/
inductive BuilderAct where
  | addCert (c : X509)
  | setDepth (d : Int)
  | setPurpose (p : X509Purpose)
  | setTrust (t : X509Trust)
  | setFlags (f : X509VerifyFlags)
  | loadLocations (file dir : String)
  | setDefaultPaths
  | addLookup
  | build
deriving DecidableEq, Repr

/-- Ownership phase of a builder value under Rust move semantics: `live`
while the binding owns it, `consumed` once `build(self)` has taken it by
value. -/
inductive BuilderPhase where
  | live
  | consumed
deriving DecidableEq, Repr

/-- Embeds the ownership discipline of the builder interface: every method
of `X509StoreBuilderRef` borrows the live builder and leaves it live;
`build` takes `self` by value (src/openssl/src/x509/store.rs:127) and
consumes it; no call type-checks on a consumed builder (`none`). -/
def stepPhase : BuilderPhase → BuilderAct → Option BuilderPhase
  | BuilderPhase.live, BuilderAct.build => some BuilderPhase.consumed
  | BuilderPhase.live, _ => some BuilderPhase.live
  | BuilderPhase.consumed, _ => none

/-- Runs a sequence of builder actions through the ownership discipline;
`none` means some call in the sequence is rejected by the type system. -/
def runPhases : BuilderPhase → List BuilderAct → Option BuilderPhase
  | p, [] => some p
  | p, a :: rest =>
    match stepPhase p a with
    | some q => runPhases q rest
    | none => none

/-- Repeats `add_cert` with the same certificate `n` times on a builder. -/
def addCertN (s : X509StoreState) (c : X509) : Nat → X509StoreState
  | 0 => s
  | n + 1 => addCertN (X509StoreBuilderRef.add_cert s c).fst c n

/-- The cache entries whose certificate carries the given subject name:
the subject-name retrieval of the object cache (§4.3, §8 round-trip). -/
def lookupBySubject (objs : List X509Object) (name : Nat) : List X509Object :=
  objs.filter (fun o =>
    match o with
    | X509Object.certificate c => c.subject == name
    | X509Object.crl _ => false)

/-- Folds a sequence of `set_flags` calls over a builder state. -/
def applyFlags (s : X509StoreState) (fs : List Nat) : X509StoreState :=
  fs.foldl (fun st f => (X509StoreBuilderRef.set_flags st (X509VerifyFlags.mk f)).fst) s

/-- Bitwise union of a list of flag words. -/
def unionAll (fs : List Nat) : Nat :=
  fs.foldl (fun a b => a ||| b) 0

/-- Decidable equality for wrapper results, so witnesses evaluate. -/
instance {A B : Type} [DecidableEq A] [DecidableEq B] : DecidableEq (Except A B) :=
  fun a b =>
  match a, b with
  | Except.error x, Except.error y =>
    if h : x = y then Decidable.isTrue (by rw [h])
    else Decidable.isFalse (fun hc => h (Except.error.inj hc))
  | Except.ok x, Except.ok y =>
    if h : x = y then Decidable.isTrue (by rw [h])
    else Decidable.isFalse (fun hc => h (Except.ok.inj hc))
  | Except.error _, Except.ok _ => Decidable.isFalse (fun hc => Except.noConfusion hc)
  | Except.ok _, Except.error _ => Decidable.isFalse (fun hc => Except.noConfusion hc)

theorem foldl_lor_shift (l : List Nat) :
    ∀ a : Nat, l.foldl (fun x y => x ||| y) a = a ||| l.foldl (fun x y => x ||| y) 0 := by
  induction l with
  | nil => intro a; simp
  | cons f rest ih =>
    intro a
    simp only [List.foldl]
    rw [ih (a ||| f), ih (0 ||| f)]
    simp [Nat.lor_assoc]

theorem set_flags_fst (s : X509StoreState) (f : X509VerifyFlags) :
    (X509StoreBuilderRef.set_flags s f).fst = { s with flags := s.flags ||| f.bits } :=
  rfl

theorem applyFlags_flags (l : List Nat) :
    ∀ s : X509StoreState, (applyFlags s l).flags = s.flags ||| unionAll l := by
  induction l with
  | nil => intro s; simp [applyFlags, unionAll]
  | cons f rest ih =>
    intro s
    have step : applyFlags s (f :: rest) =
        applyFlags { s with flags := s.flags ||| f } rest := rfl
    rw [step, ih]
    have hu : unionAll (f :: rest) = f ||| unionAll rest := by
      simp only [unionAll, List.foldl]
      rw [foldl_lor_shift rest (0 ||| f)]
      simp
    rw [hu]
    simp [Nat.lor_assoc]

/-- Claim C1: the verify-flags setter is cumulative-additive — a sequence of
`set_flags` calls on a fresh builder leaves exactly the bitwise union of all
the flag words in force, and a single call unites its argument with the
flags already present, losing no earlier bit. -/
theorem set_flags_cumulative_additive :
    (∀ l : List Nat, (applyFlags X509StoreBuilder.new l).flags = unionAll l) ∧
    (∀ (s : X509StoreState) (f : X509VerifyFlags),
      (X509StoreBuilderRef.set_flags s f).fst.flags = s.flags ||| f.bits) := by
  constructor
  · intro l
    rw [applyFlags_flags]
    simp [X509StoreBuilder.new]
  · intro s f
    rfl

/-- Claim C2: `set_depth` on a negative depth fails with `InvalidArgument`
and leaves the store unchanged — a negative value is never installed. -/
theorem set_depth_rejects_negative :
    ∀ (s : X509StoreState) (d : Int), d < 0 →
      X509StoreBuilderRef.set_depth s d = (s, Except.error X509Error.InvalidArgument) := by
  intro s d hd
  simp [X509StoreBuilderRef.set_depth, X509_STORE_set_depth, cvt, hd, Except.map]

theorem set_depth_rejects_negative_witness :
    X509StoreBuilderRef.set_depth X509StoreBuilder.new (-1) =
      (X509StoreBuilder.new, Except.error X509Error.InvalidArgument) :=
  set_depth_rejects_negative X509StoreBuilder.new (-1) (by decide)

/-- Claim C9: `X509Purpose` and `X509Trust` are transparent wrappers over
raw integers — `from_raw` then `as_raw` is the identity on every integer,
and two values are equal exactly when their raw integers are. -/
theorem purpose_trust_transparent :
    (∀ r : Int, (X509Purpose.from_raw r).as_raw = r) ∧
    (∀ r : Int, (X509Trust.from_raw r).as_raw = r) ∧
    (∀ a b : X509Purpose, a = b ↔ a.as_raw = b.as_raw) ∧
    (∀ a b : X509Trust, a = b ↔ a.as_raw = b.as_raw) := by
  refine ⟨fun r => rfl, fun r => rfl, fun a b => ?_, fun a b => ?_⟩
  · cases a; cases b; simp [X509Purpose.as_raw]
  · cases a; cases b; simp [X509Trust.as_raw]

/-- Claim C10: `build` is infallible (its type returns a store, not a
result) and changes nothing — the resulting store's object cache, depth,
purpose, trust and flags are exactly the builder's at the moment of the
call. -/
theorem build_infallible_and_frame_preserving :
    ∀ s : X509StoreState,
      X509StoreRef.objects (X509StoreBuilder.build s) = s.objs ∧
      (X509StoreBuilder.build s).depth = s.depth ∧
      (X509StoreBuilder.build s).purpose = s.purpose ∧
      (X509StoreBuilder.build s).trust = s.trust ∧
      (X509StoreBuilder.build s).flags = s.flags ∧
      X509StoreBuilder.build s = s :=
  fun _ => ⟨rfl, rfl, rfl, rfl, rfl, rfl⟩

theorem runPhases_consumed_cons (x : BuilderAct) (l : List BuilderAct) :
    runPhases BuilderPhase.consumed (x :: l) = none :=
  rfl

theorem stepPhase_live_of_ne_build (a : BuilderAct) (h : a ≠ BuilderAct.build) :
    stepPhase BuilderPhase.live a = some BuilderPhase.live := by
  cases a <;> first | rfl | exact absurd rfl h

/-- Claim C5: `build` consumes the builder.  Under the ownership discipline
of the interface, any sequence of non-`build` builder-method calls on a live
builder type-checks and leaves it live, while any call — builder method or a
second `build` — placed after a `build` is rejected by the type system (the
run is `none`): the finalizer is callable at most once per builder, and no
method call on the consumed builder is possible, silently ignored or
otherwise. -/
theorem build_consumes_builder :
    (∀ acts : List BuilderAct, (∀ a ∈ acts, a ≠ BuilderAct.build) →
      runPhases BuilderPhase.live acts = some BuilderPhase.live) ∧
    (∀ (pre post : List BuilderAct) (a : BuilderAct),
      runPhases BuilderPhase.live (pre ++ BuilderAct.build :: a :: post) = none) := by
  constructor
  · intro acts h
    induction acts with
    | nil => rfl
    | cons a rest ih =>
      have ha : a ≠ BuilderAct.build := h a (List.mem_cons_self a rest)
      have hrest : ∀ b ∈ rest, b ≠ BuilderAct.build :=
        fun b hb => h b (List.mem_cons_of_mem a hb)
      show runPhases BuilderPhase.live (a :: rest) = some BuilderPhase.live
      simp only [runPhases, stepPhase_live_of_ne_build a ha]
      exact ih hrest
  · intro pre post a
    induction pre with
    | nil =>
      show runPhases BuilderPhase.live (BuilderAct.build :: a :: post) = none
      simp only [runPhases, stepPhase]
    | cons p rest ih =>
      show runPhases BuilderPhase.live
        (p :: (rest ++ BuilderAct.build :: a :: post)) = none
      by_cases hp : p = BuilderAct.build
      · subst hp
        simp only [runPhases, stepPhase]
        cases rest with
        | nil => exact runPhases_consumed_cons BuilderAct.build (a :: post)
        | cons q qrest => exact runPhases_consumed_cons q _
      · simp only [runPhases, stepPhase_live_of_ne_build p hp]
        exact ih

theorem build_consumes_builder_witness :
    runPhases BuilderPhase.live
      [BuilderAct.addCert (X509.mk 1 1), BuilderAct.setDefaultPaths] =
      some BuilderPhase.live :=
  build_consumes_builder.1
    [BuilderAct.addCert (X509.mk 1 1), BuilderAct.setDefaultPaths] (by decide)

theorem addCertN_of_mem (c : X509) (s : X509StoreState)
    (h : X509Object.certificate c ∈ s.objs) :
    ∀ n : Nat, addCertN s c n = s := by
  intro n
  induction n with
  | zero => rfl
  | succ n ih =>
    have hfix : (X509StoreBuilderRef.add_cert s c).fst = s := by
      simp [X509StoreBuilderRef.add_cert, X509_STORE_add_cert, h]
    show addCertN (X509StoreBuilderRef.add_cert s c).fst c n = s
    rw [hfix]
    exact ih

/-- Claim C4: after one or more repeated `add_cert c` calls on a fresh
builder, the finalized store's object cache holds `c` exactly once, and the
subject-name retrieval finds exactly that entry — duplicate inserts of the
same certificate never produce duplicate cache entries. -/
theorem add_cert_dedupes_in_cache :
    ∀ (c : X509) (n : Nat), 1 ≤ n →
      X509StoreRef.objects (X509StoreBuilder.build (addCertN X509StoreBuilder.new c n)) =
        [X509Object.certificate c] ∧
      (X509StoreRef.objects
        (X509StoreBuilder.build (addCertN X509StoreBuilder.new c n))).count
          (X509Object.certificate c) = 1 ∧
      lookupBySubject
        (X509StoreRef.objects (X509StoreBuilder.build (addCertN X509StoreBuilder.new c n)))
        c.subject = [X509Object.certificate c] := by
  intro c n hn
  obtain ⟨m, rfl⟩ : ∃ m, n = m + 1 := ⟨n - 1, by omega⟩
  have hstep : addCertN X509StoreBuilder.new c (m + 1) =
      addCertN (X509StoreBuilderRef.add_cert X509StoreBuilder.new c).fst c m := rfl
  have hone : (X509StoreBuilderRef.add_cert X509StoreBuilder.new c).fst =
      { X509StoreBuilder.new with objs := [X509Object.certificate c] } := by
    simp [X509StoreBuilderRef.add_cert, X509_STORE_add_cert, X509StoreBuilder.new]
  have hrest : addCertN { X509StoreBuilder.new with objs := [X509Object.certificate c] } c m =
      { X509StoreBuilder.new with objs := [X509Object.certificate c] } :=
    addCertN_of_mem c _ (by simp) m
  have hobjs : X509StoreRef.objects
      (X509StoreBuilder.build (addCertN X509StoreBuilder.new c (m + 1))) =
      [X509Object.certificate c] := by
    rw [hstep, hone, hrest]; rfl
  refine ⟨hobjs, ?_, ?_⟩
  · rw [hobjs]; simp
  · rw [hobjs]; simp [lookupBySubject]

theorem add_cert_dedupes_in_cache_witness :
    X509StoreRef.objects
      (X509StoreBuilder.build (addCertN X509StoreBuilder.new (X509.mk 5 7) 3)) =
        [X509Object.certificate (X509.mk 5 7)] ∧
    (X509StoreRef.objects
      (X509StoreBuilder.build (addCertN X509StoreBuilder.new (X509.mk 5 7) 3))).count
        (X509Object.certificate (X509.mk 5 7)) = 1 ∧
    lookupBySubject
      (X509StoreRef.objects (X509StoreBuilder.build (addCertN X509StoreBuilder.new (X509.mk 5 7) 3)))
      5 = [X509Object.certificate (X509.mk 5 7)] :=
  add_cert_dedupes_in_cache (X509.mk 5 7) 3 (by decide)

/-- Claim C3 counterexample: `load_locations` on a file path containing an
interior NUL byte does not return a result value — the wrapper's
`CString::new(..).unwrap()` panics (embedded as `none`), refuting the claim
that no operation of the interface panics. -/
theorem load_locations_panics_on_nul :
    X509StoreBuilderRef.load_locations (FileSystem.mk [] [] [] [])
      X509StoreBuilder.new ("ca\x00.pem") ("") = none := by
  have h : cstring_new ("ca\x00.pem") = none := by decide
  simp [X509StoreBuilderRef.load_locations, h]

/-- Claim C3 (amended): every builder/store operation returns a result
value, except `load_locations` and `add_dir`, which panic exactly when an
argument string contains an interior NUL byte (and `load_locations` also on
non-UTF-8 path names, outside this embedding of paths as UTF-8 strings);
no other failure aborts the process. -/
theorem wrapper_panic_exactly_on_nul :
    (∀ (fs : FileSystem) (s : X509StoreState) (file dir : String),
      (X509StoreBuilderRef.load_locations fs s file dir).isNone =
        (hasNulByte file || hasNulByte dir)) ∧
    (∀ (fs : FileSystem) (reg : X509LookupHashDirReg) (name : String)
       (file_type : SslFiletype),
      (X509LookupRef.add_dir fs reg name file_type).isNone = hasNulByte name) := by
  constructor
  · intro fs s file dir
    cases hf : hasNulByte file <;> cases hd : hasNulByte dir <;>
      simp [X509StoreBuilderRef.load_locations, cstring_new, hf, hd]
  · intro fs reg name file_type
    cases hn : hasNulByte name <;>
      simp [X509LookupRef.add_dir, cstring_new, hn]

/-- Claim C6: `load_locations` with both the file and the directory path
empty fails with `InvalidArgument`, and a successful call requires at least
one of the two paths to be usable (a nonempty readable well-formed file, or
a nonempty readable directory). -/
theorem load_locations_requires_usable_path :
    (∀ (fs : FileSystem) (s : X509StoreState),
      X509StoreBuilderRef.load_locations fs s ("") ("") =
        some (s, Except.error X509Error.InvalidArgument)) ∧
    (∀ (fs : FileSystem) (s s2 : X509StoreState) (file dir : String),
      X509StoreBuilderRef.load_locations fs s file dir = some (s2, Except.ok ()) →
      (file ≠ "" ∧ file ∈ fs.readableFiles ∧ file ∈ fs.wellFormedFiles) ∨
      (dir ≠ "" ∧ dir ∈ fs.readableDirs)) := by
  constructor
  · intro fs s
    have h0 : hasNulByte ("") = false := by decide
    simp [X509StoreBuilderRef.load_locations, cstring_new, h0,
      X509_STORE_load_locations, cvt, Except.map]
  · intro fs s s2 file dir h
    cases hf : hasNulByte file with
    | true => simp [X509StoreBuilderRef.load_locations, cstring_new, hf] at h
    | false =>
      cases hd : hasNulByte dir with
      | true => simp [X509StoreBuilderRef.load_locations, cstring_new, hf, hd] at h
      | false =>
        simp only [X509StoreBuilderRef.load_locations, cstring_new, hf, hd,
          Bool.false_eq_true, if_false] at h
        by_cases h1 : file = "" ∧ dir = ""
        · simp [X509_STORE_load_locations, h1, cvt, Except.map] at h
        · by_cases h2 : file ≠ "" ∧ file ∉ fs.readableFiles
          · simp [X509_STORE_load_locations, h1, h2, cvt, Except.map] at h
          · by_cases h3 : file ≠ "" ∧ file ∉ fs.wellFormedFiles
            · simp [X509_STORE_load_locations, h1, h2, h3, cvt, Except.map] at h
              rcases h with ⟨-, h⟩
              by_cases hr : file ∈ fs.readableFiles <;> simp [hr] at h
            · by_cases h4 : dir ≠ "" ∧ dir ∉ fs.readableDirs
              · simp [X509_STORE_load_locations, h1, h2, h3, h4, cvt, Except.map] at h
              · push_neg at h1 h2 h3 h4
                by_cases hfile : file = ""
                · exact Or.inr ⟨h1 hfile, h4 (h1 hfile)⟩
                · exact Or.inl ⟨hfile, h2 hfile, h3 hfile⟩

theorem load_locations_requires_usable_path_witness :
    (("ca.pem" : String) ≠ "" ∧
      ("ca.pem" : String) ∈ (FileSystem.mk [("ca.pem")] [("ca.pem")] [] []).readableFiles ∧
      ("ca.pem" : String) ∈ (FileSystem.mk [("ca.pem")] [("ca.pem")] [] []).wellFormedFiles) ∨
    (("" : String) ≠ "" ∧
      ("" : String) ∈ (FileSystem.mk [("ca.pem")] [("ca.pem")] [] []).readableDirs) :=
  load_locations_requires_usable_path.2 (FileSystem.mk [("ca.pem")] [("ca.pem")] [] [])
    X509StoreBuilder.new X509StoreBuilder.new ("ca.pem") ("") (by decide)

/-- Claim C7: `set_default_paths` with both environment variables unset and
no compile-time defaults configured succeeds with zero objects loaded (the
store is returned unchanged), and any failure of the operation is an
`IoError` arising exactly when some configured default is unreadable. -/
theorem set_default_paths_no_defaults_noop :
    (∀ (fs : FileSystem) (s : X509StoreState),
      X509StoreBuilderRef.set_default_paths fs (SslEnv.mk none none)
        (OpensslDefaults.mk none none) s = (s, Except.ok ())) ∧
    (∀ (fs : FileSystem) (env : SslEnv) (defs : OpensslDefaults)
       (s s2 : X509StoreState) (e : X509Error),
      X509StoreBuilderRef.set_default_paths fs env defs s = (s2, Except.error e) →
      e = X509Error.IoError ∧ defaultsUnreadable fs env defs = true ∧ s2 = s) := by
  constructor
  · intro fs s
    rfl
  · intro fs env defs s s2 e h
    simp only [X509StoreBuilderRef.set_default_paths] at h
    cases hef : effectiveDefaultFile env defs with
    | none =>
      cases hed : effectiveDefaultDir env defs with
      | none =>
        simp [X509_STORE_set_default_paths, hef, hed, cvt, Except.map] at h
      | some d =>
        simp only [X509_STORE_set_default_paths, hef, hed] at h
        cases hu : defaultsUnreadable fs env defs with
        | true =>
          simp [hu, cvt, Except.map] at h
          exact ⟨h.2.symm, rfl, h.1.symm⟩
        | false =>
          simp [hu, cvt, Except.map] at h
    | some f =>
      simp only [X509_STORE_set_default_paths, hef] at h
      cases hu : defaultsUnreadable fs env defs with
      | true =>
        simp [hu, cvt, Except.map] at h
        exact ⟨h.2.symm, rfl, h.1.symm⟩
      | false =>
        simp [hu, cvt, Except.map] at h

theorem set_default_paths_no_defaults_noop_witness :
    X509Error.IoError = X509Error.IoError ∧
    defaultsUnreadable (FileSystem.mk [] [] [] [])
      (SslEnv.mk (some ("nofile")) none) (OpensslDefaults.mk none none) = true ∧
    X509StoreBuilder.new = X509StoreBuilder.new :=
  set_default_paths_no_defaults_noop.2 (FileSystem.mk [] [] [] [])
    (SslEnv.mk (some ("nofile")) none) (OpensslDefaults.mk none none)
    X509StoreBuilder.new X509StoreBuilder.new X509Error.IoError (by decide)

theorem crlFresher_refl (a : X509Crl) : crlFresher a a :=
  Or.inr ⟨rfl, le_refl _⟩

theorem crlFresher_trans {a b c : X509Crl}
    (h1 : crlFresher a b) (h2 : crlFresher b c) : crlFresher a c := by
  unfold crlFresher at *
  omega

theorem betterCrl_left (a b : X509Crl) : crlFresher a (betterCrl a b) := by
  unfold betterCrl crlFresher
  split_ifs <;> omega

theorem betterCrl_right (a b : X509Crl) : crlFresher b (betterCrl a b) := by
  unfold betterCrl crlFresher
  split_ifs <;> omega

theorem freshestCrl_dominates (l : List X509Crl) :
    ∀ base : X509Crl, crlFresher base (freshestCrl base l) ∧
      ∀ d ∈ l, crlFresher d (freshestCrl base l) := by
  induction l with
  | nil => intro base; exact ⟨crlFresher_refl base, by simp⟩
  | cons x xs ih =>
    intro base
    have hfold : freshestCrl base (x :: xs) = freshestCrl (betterCrl base x) xs := rfl
    have hx := ih (betterCrl base x)
    rw [hfold]
    refine ⟨crlFresher_trans (betterCrl_left base x) hx.1, ?_⟩
    intro d hd
    rcases List.mem_cons.mp hd with hdx | hdm
    · subst hdx
      exact crlFresher_trans (betterCrl_right base d) hx.1
    · exact hx.2 d hdm

/-- Claim C8: the hashed-directory lookup never answers a CRL query from a
known-stale cache entry — when the cached CRL for the requested name is
expired, the lookup re-scans its registered directories and answers with a
CRL at least as fresh (by number, then date) as the cached one and as every
candidate file on disk. -/
theorem hash_dir_never_serves_stale_crl :
    ∀ (st : HashDirQueryState) (name now : Nat) (c : X509Crl),
      cachedCrlFor st name = some c →
      crlExpired now c = true →
      ∃ r, (hashDirGetCrl st name now).snd = some r ∧
        crlFresher c r ∧ ∀ d ∈ scanForCrl st.dirs name, crlFresher d r := by
  intro st name now c hc hexp
  have hres : (hashDirGetCrl st name now).snd =
      some (freshestCrl c (scanForCrl st.dirs name)) := by
    simp [hashDirGetCrl, hc, hexp, freshestCrl]
  exact ⟨freshestCrl c (scanForCrl st.dirs name), hres,
    (freshestCrl_dominates _ c).1, (freshestCrl_dominates _ c).2⟩

theorem hash_dir_never_serves_stale_crl_witness :
    ∃ r, (hashDirGetCrl
        (HashDirQueryState.mk [[X509Crl.mk 1 2 60 200]] [X509Crl.mk 1 1 10 50])
        1 100).snd = some r ∧
      crlFresher (X509Crl.mk 1 1 10 50) r ∧
      ∀ d ∈ scanForCrl [[X509Crl.mk 1 2 60 200]] 1, crlFresher d r :=
  hash_dir_never_serves_stale_crl
    (HashDirQueryState.mk [[X509Crl.mk 1 2 60 200]] [X509Crl.mk 1 1 10 50])
    1 100 (X509Crl.mk 1 1 10 50) (by decide) (by decide)
